import Mathlib

/-!
Verification of the heuristic privacy-policy analysis engine
(`policy_analyzer.py`) and the privacy-policy discovery procedure
(`scraper.py`) of the awsHackathon repository.

Python strings are modelled as `List Char`; the Python substring test
`needle in hay` is `List.isInfixOf`; `str.lower()` is a character-wise
ASCII lower-casing (`Char.toLower`), which agrees with Python on the
ASCII keyword tables the code matches against.  Machine integers are
`Int`.  Only the deterministic, model-free ("mock"/fallback) paths are
embedded, which is the scope of the specification; network and
filesystem effects are passed in as explicit oracles.
-/

/-- Python strings, modelled as their character lists. -/
abbrev Str := List Char

/-- `str.lower()` (ASCII case folding, character-wise). -/
def lowerStr (s : Str) : Str := s.map Char.toLower

/-- Python `needle in hay` on strings: `needle` occurs as a contiguous
substring of `hay` (an empty needle always occurs). -/
def containsSub (hay needle : Str) : Bool :=
  match hay with
  | [] => needle.isPrefixOf []
  | c :: t => needle.isPrefixOf (c :: t) || containsSub t needle

/-- Python `any(term in hay for term in terms)`. -/
def anyTermIn (hay : Str) (terms : List Str) : Bool :=
  terms.any (fun t => containsSub hay t)

/-- `", ".join(xs)` and similar joins. -/
def joinSep (sep : Str) (xs : List Str) : Str := List.intercalate sep xs

/-!
## Data model

A policy record, as loaded from `data/policies/<platform>.json` or built
from the mock tables.  The Python code reads the keys with
`policy.get(key, default)`, so every key other than `text` may be
absent; absence is modelled with `Option` and `get` with `Option.getD`.
-/

structure Policy where
  text : Str
  data_types : Option (List Str)
  sharing : Option Str
  retention : Option Str
  concerns : Option (List Str)
deriving DecidableEq

/-- Result record of `summarize_policy` / `summarize_policy_from_text`. -/
structure Summary where
  key_points : Str
  concerns : Str
  positives : Str
  score : Int
  data_types : List Str
deriving DecidableEq

/-- Result record of `_analyze_scraped_text` / `_extract_harmful_fallback`. -/
structure HarmfulAnalysis where
  harmful_points : Str
  worst_data : Str
  recommendation : Str
deriving DecidableEq

/-- Result record of `analyze_scraped_policy`. -/
structure ScrapedAnalysis where
  score : Int
  harmful_points : Str
  worst_data : Str
  recommendation : Str
  company_name : Str
  analysis_type : Str
deriving DecidableEq

/-!
## `PolicyAnalyzer._calculate_score` (policy_analyzer.py lines 193-205)

Structured-policy scoring: baseline 70, three deductions, clamp.
-/

def calculate_score (policy : Policy) : Int :=
  let score : Int := 70
  let score :=
    if containsSub (lowerStr (policy.retention.getD [])) ("indefinitely".data)
    then score - 15 else score
  let score :=
    if 6 < (policy.data_types.getD []).length then score - 10 else score
  let score :=
    if containsSub (lowerStr (policy.sharing.getD [])) ("advertising".data)
    then score - 10 else score
  max 0 (min 100 score)

/-!
## The shadowed first `_calculate_score_from_text` (lines 330-359)

`policy_analyzer.py` defines `_calculate_score_from_text` twice in the
same class body; Python class semantics make the second definition
(lines 620-647) the one every call resolves to.  The first definition is
kept here, under the suffix `_v1`, to witness that the two differ.
-/

def concerning_terms_v1 : List (Str × Int) :=
  [("sell".data, -15), ("advertising".data, -10), ("marketing".data, -5),
   ("third party".data, -10), ("partners".data, -8), ("affiliate".data, -8),
   ("indefinitely".data, -15), ("permanent".data, -10), ("biometric".data, -15),
   ("track".data, -10), ("monitor".data, -8), ("profile".data, -5),
   ("share".data, -5), ("disclose".data, -8)]

def positive_terms_v1 : List (Str × Int) :=
  [("delete".data, 5), ("opt out".data, 8), ("control".data, 5),
   ("consent".data, 8), ("privacy".data, 3), ("secure".data, 5),
   ("encrypt".data, 10), ("anonymous".data, 8)]

def calculate_score_from_text_v1 (text : Str) : Int :=
  let text_lower := lowerStr text
  let score : Int := 70
  let score := concerning_terms_v1.foldl
    (fun s p => if containsSub text_lower p.1 then s + p.2 else s) score
  let score := positive_terms_v1.foldl
    (fun s p => if containsSub text_lower p.1 then s + p.2 else s) score
  max 0 (min 100 score)

/-!
## The effective `_calculate_score_from_text` (lines 620-647)

Raw-text scoring: baseline 30, six additive penalty groups, three
subtractive bonus groups, clamp.  The term groups below are shared
verbatim with `_analyze_scraped_text` (lines 563-580), which uses the
same six concern groups.
-/

def sell_terms : List Str := ["sell".data, "selling".data, "sold".data]
def third_party_terms : List Str := ["third party".data, "third-party".data, "partners".data]
def track_terms : List Str := ["track".data, "tracking".data, "monitor".data]
def location_terms : List Str := ["location".data, "gps".data, "geolocation".data]
def biometric_terms : List Str := ["biometric".data, "facial".data, "fingerprint".data]
def indefinite_terms : List Str := ["indefinitely".data, "permanently".data, "forever".data]
def gdpr_terms : List Str := ["gdpr".data, "data protection".data, "user rights".data]
def delete_terms : List Str := ["delete".data, "deletion".data, "remove data".data]
def opt_out_terms : List Str := ["opt out".data, "opt-out".data, "unsubscribe".data]

def calculate_score_from_text (policy_text : Str) : Int :=
  let text_lower := lowerStr policy_text
  let score : Int := 30
  let score := if anyTermIn text_lower sell_terms then score + 25 else score
  let score := if anyTermIn text_lower third_party_terms then score + 15 else score
  let score := if anyTermIn text_lower track_terms then score + 15 else score
  let score := if anyTermIn text_lower location_terms then score + 10 else score
  let score := if anyTermIn text_lower biometric_terms then score + 20 else score
  let score := if anyTermIn text_lower indefinite_terms then score + 15 else score
  let score := if anyTermIn text_lower gdpr_terms then score - 10 else score
  let score := if anyTermIn text_lower delete_terms then score - 5 else score
  let score := if anyTermIn text_lower opt_out_terms then score - 5 else score
  min (max score 0) 100

/-!
## `PolicyAnalyzer._get_mock_policy` (lines 71-117)

The static mock policy table and its default entry.  None of the mock
entries carries a `concerns` key.
-/

def mock_policy_table : List (Str × Policy) :=
  [("Tinder".data,
    { text := "Tinder collects personal data including photos, messages, location, and usage patterns...".data,
      data_types := some ["Photos".data, "Messages".data, "Location".data, "Device Info".data, "Usage Patterns".data, "Swipe History".data],
      sharing := some "Shares with Match Group companies and advertising partners".data,
      retention := some "Retains data indefinitely unless deleted".data,
      concerns := none }),
   ("Facebook".data,
    { text := "Facebook collects extensive data including posts, likes, friends, and browsing activity...".data,
      data_types := some ["Posts".data, "Photos".data, "Friends List".data, "Likes".data, "Location".data, "Browsing History".data, "Ad Interactions".data],
      sharing := some "Shares with Meta companies, advertisers, and third-party apps".data,
      retention := some "Retains most data permanently".data,
      concerns := none }),
   ("Finn.no".data,
    { text := "Finn.no collects personal information to provide marketplace services, including contact details, location for listings, and usage data. As a Norwegian company, Finn follows strict GDPR compliance and privacy-by-design principles.".data,
      data_types := some ["Name & Contact Info".data, "Location Data".data, "Listing Information".data, "Search History".data, "Device Information".data, "Usage Analytics".data],
      sharing := some "Limited sharing with service providers and advertisers. No data sold to third parties".data,
      retention := some "Data retained as long as account is active, deleted upon request".data,
      concerns := none }),
   ("Instagram".data,
    { text := "Instagram collects photos, videos, messages, and extensive behavioral data for advertising purposes...".data,
      data_types := some ["Photos".data, "Videos".data, "Stories".data, "Messages".data, "Location".data, "Browsing Behavior".data, "Ad Interactions".data],
      sharing := some "Shares extensively with Meta companies and advertising partners".data,
      retention := some "Retains data indefinitely for business purposes".data,
      concerns := none }),
   ("TikTok".data,
    { text := "TikTok collects video content, biometric data, device information, and behavioral patterns...".data,
      data_types := some ["Videos".data, "Biometric Data".data, "Voice Data".data, "Location".data, "Device Info".data, "Browsing History".data, "Contacts".data],
      sharing := some "Shares with ByteDance companies and may transfer data internationally".data,
      retention := some "Retains data for business operations and legal compliance".data,
      concerns := none }),
   ("WhatsApp".data,
    { text := "WhatsApp collects metadata, contact information, and usage data while providing end-to-end encryption for messages...".data,
      data_types := some ["Phone Number".data, "Contacts".data, "Profile Info".data, "Message Metadata".data, "Location".data, "Device Info".data],
      sharing := some "Shares metadata with Meta companies for advertising on other platforms".data,
      retention := some "Messages stored on device, metadata retained by company".data,
      concerns := none })]

def get_mock_policy (platform : Str) : Policy :=
  match mock_policy_table.find? (fun kv => kv.1 == platform) with
  | some kv => kv.2
  | none =>
    { text := platform ++ " privacy policy...".data,
      data_types := some ["Personal Info".data, "Usage Data".data, "Device Info".data],
      sharing := some "Shares with partners".data,
      retention := some "Varies by data type".data,
      concerns := none }

/-- `_load_policy` (lines 60-69): the policies directory is an oracle
`fs`; a present JSON file yields its parsed `Policy`, otherwise the mock
table is consulted. -/
def load_policy (fs : Str → Option Policy) (platform : Str) : Policy :=
  match fs platform with
  | some p => p
  | none => get_mock_policy platform

/-!
## Extraction helpers (lines 166-205)
-/

/-- `_generate_mock_summary` (lines 166-175). -/
def generate_mock_summary (platform : Str) (policy : Policy) : Str :=
  let data_types := joinSep ", ".data ((policy.data_types.getD []).take 3)
  "**".data ++ platform ++ "** collects: ".data ++ data_types ++
  ", and more.\n\n**Usage**: Primarily for service improvement, personalization, and targeted advertising.\n\n**Sharing**: ".data ++
  (policy.sharing.getD "Shares with partners and affiliates".data) ++
  "\n\n**Your Rights**: You can request data deletion, but some data may be retained for legal purposes.".data

/-- `_extract_concerns` (lines 177-187). -/
def extract_concerns (policy : Policy) : Str :=
  let concerns : List Str :=
    (if containsSub (lowerStr (policy.retention.getD [])) ("indefinitely".data)
     then ["📌 Data retained indefinitely".data] else []) ++
    (if containsSub (lowerStr (policy.sharing.getD [])) ("advertising".data)
     then ["📌 Shared with advertisers".data] else []) ++
    (if 5 < (policy.data_types.getD []).length
     then ["📌 Collects extensive personal data".data] else [])
  if concerns = [] then "No major red flags detected".data
  else joinSep "\n".data concerns

/-- `_extract_positives` (lines 189-191): a constant, ignoring the
policy argument. -/
def extract_positives (_policy : Policy) : Str :=
  "✓ Allows data deletion requests\n✓ Provides privacy controls\n✓ GDPR compliant".data

/-- `summarize_policy` (lines 119-135) on the model-free path
(`bedrock_client is None`), with the policies directory as oracle. -/
def summarize_policy (fs : Str → Option Policy) (platform : Str) : Summary :=
  let policy := load_policy fs platform
  let summary_text := generate_mock_summary platform policy
  { key_points := summary_text,
    concerns := extract_concerns policy,
    positives := extract_positives policy,
    score := calculate_score policy,
    data_types := policy.data_types.getD [] }

/-!
## `_extract_data_types_from_text` (lines 299-328)
-/

def data_type_keywords : List (Str × Str) :=
  [("email".data, "Email Address".data),
   ("phone".data, "Phone Number".data),
   ("location".data, "Location Data".data),
   ("photo".data, "Photos".data),
   ("message".data, "Messages".data),
   ("contact".data, "Contacts".data),
   ("device".data, "Device Information".data),
   ("ip address".data, "IP Address".data),
   ("cookie".data, "Cookies".data),
   ("browsing".data, "Browsing History".data),
   ("payment".data, "Payment Information".data),
   ("biometric".data, "Biometric Data".data),
   ("voice".data, "Voice Data".data),
   ("video".data, "Video Data".data),
   ("search".data, "Search History".data),
   ("preference".data, "User Preferences".data)]

def extract_data_types_from_text (text : Str) : List Str :=
  let text_lower := lowerStr text
  (data_type_keywords.filterMap
    (fun kv => if containsSub text_lower kv.1 then some kv.2 else none)).take 10

/-- `summarize_policy_from_text` (lines 259-285) on the model-free path.
The dict literal passed to `_generate_mock_summary` carries only the
`text` key; the `mock_policy` dict of lines 272-277 carries all four. -/
def summarize_policy_from_text (policy_text : Str) (platform : Str) : Summary :=
  let summary_text := generate_mock_summary platform
    { text := policy_text, data_types := none, sharing := none,
      retention := none, concerns := none }
  let data_types := extract_data_types_from_text policy_text
  let mock_policy : Policy :=
    { text := policy_text,
      data_types := some data_types,
      sharing := some "Shares with partners and third parties".data,
      retention := some "Retains data as described in policy".data,
      concerns := none }
  { key_points := summary_text,
    concerns := extract_concerns mock_policy,
    positives := extract_positives mock_policy,
    score := calculate_score_from_text policy_text,
    data_types := data_types }

/-!
## `_analyze_scraped_text` (lines 563-618) and
`analyze_scraped_policy` (lines 541-561), model-free path
-/

def email_terms : List Str := ["email".data, "e-mail".data]
def phone_terms : List Str := ["phone".data, "telephone".data, "mobile".data]
def photo_terms : List Str := ["photo".data, "image".data, "picture".data]
def message_terms : List Str := ["message".data, "chat".data, "communication".data]
def browsing_terms : List Str := ["browsing".data, "website".data, "web".data]

def analyze_scraped_text (policy_text : Str) (company_name : Str) : HarmfulAnalysis :=
  let text_lower := lowerStr policy_text
  let concerns : List Str :=
    (if anyTermIn text_lower sell_terms then ["may sell your personal data".data] else []) ++
    (if anyTermIn text_lower third_party_terms then ["shares data with third parties".data] else []) ++
    (if anyTermIn text_lower track_terms then ["tracks your online behavior".data] else []) ++
    (if anyTermIn text_lower location_terms then ["collects location data".data] else []) ++
    (if anyTermIn text_lower biometric_terms then ["collects biometric data".data] else []) ++
    (if anyTermIn text_lower indefinite_terms then ["retains data indefinitely".data] else [])
  let data_types : List Str :=
    (if anyTermIn text_lower email_terms then ["email addresses".data] else []) ++
    (if anyTermIn text_lower phone_terms then ["phone numbers".data] else []) ++
    (if anyTermIn text_lower photo_terms then ["photos and images".data] else []) ++
    (if anyTermIn text_lower message_terms then ["messages and communications".data] else []) ++
    (if anyTermIn text_lower browsing_terms then ["browsing history".data] else [])
  let harmful_points :=
    if concerns ≠ [] then
      company_name ++ " ".data ++ joinSep ", ".data (concerns.take 3) ++
      ". This could impact your privacy and data security.".data
    else
      company_name ++ " collects personal data for business purposes. The extent of data collection and sharing practices may vary.".data
  let worst_data :=
    if data_types ≠ [] then
      "Most concerning data includes: ".data ++ joinSep ", ".data (data_types.take 3) ++
      ". This information could be used for profiling and targeting.".data
    else
      "Personal information and usage data that could be used for profiling and advertising purposes.".data
  let recommendation :=
    if 3 ≤ concerns.length then
      "Be very cautious with ".data ++ company_name ++
      ". Consider limiting the personal information you provide and review privacy settings regularly.".data
    else if 1 ≤ concerns.length then
      "Review ".data ++ company_name ++
      "\x27s privacy settings and be selective about what information you share.".data
    else
      "While ".data ++ company_name ++
      " appears to have standard privacy practices, always review settings and limit unnecessary data sharing.".data
  { harmful_points := harmful_points,
    worst_data := worst_data,
    recommendation := recommendation }

def analyze_scraped_policy (policy_text : Str) (company_name : Str) : ScrapedAnalysis :=
  let harmful_analysis := analyze_scraped_text policy_text company_name
  let score := calculate_score_from_text policy_text
  { score := score,
    harmful_points := harmful_analysis.harmful_points,
    worst_data := harmful_analysis.worst_data,
    recommendation := harmful_analysis.recommendation,
    company_name := company_name,
    analysis_type := "live_scraping".data }

/-!
## `_generate_mock_chat_response` (lines 403-421)

The five intent branches, in source priority order; each branch template
is named so theorems can refer to it.
-/

def risky_filter_terms : List Str :=
  ["location".data, "biometric".data, "message".data, "contact".data]

def risky_response (platform : Str) (policy : Policy) : Str :=
  let risky_data := (policy.data_types.getD []).filter
    (fun d => anyTermIn (lowerStr d) risky_filter_terms)
  "🚨 The riskiest data ".data ++ platform ++ " collects includes: ".data ++
  joinSep ", ".data (risky_data.take 3) ++
  ". This data can be used for detailed profiling and tracking.".data

def protect_response (platform : Str) : Str :=
  "🛡️ To protect your privacy on ".data ++ platform ++
  ":\n• Review and adjust privacy settings\n• Limit location sharing\n• Be selective about what you post\n• Regularly review connected apps\n• Consider deleting old data".data

def deletion_response (platform : Str) : Str :=
  "📱 To delete your ".data ++ platform ++
  " data:\n• Go to account settings\n• Look for \x27Delete Account\x27 or \x27Data & Privacy\x27\n• Download your data first if needed\n• Note: Some data may be retained for legal purposes".data

def sharing_response (platform : Str) (policy : Policy) : Str :=
  "🔗 ".data ++ platform ++ " shares your data with: ".data ++
  (policy.sharing.getD "various partners".data) ++
  ". This means your information may be used beyond just the platform itself.".data

def catch_all_response (platform : Str) (policy : Policy) : Str :=
  "🤖 Great question! Based on ".data ++ platform ++
  "\x27s policy, they collect ".data ++
  (Nat.repr (policy.data_types.getD []).length).data ++
  " types of data. The main concerns are: ".data ++
  joinSep ", ".data ((policy.concerns.getD []).take 2) ++
  ". Would you like me to explain any specific aspect?".data

def generate_mock_chat_response (question : Str) (platform : Str) (policy : Policy) : Str :=
  let question_lower := lowerStr question
  if containsSub question_lower "risky".data || containsSub question_lower "dangerous".data then
    risky_response platform policy
  else if containsSub question_lower "protect".data || containsSub question_lower "privacy".data then
    protect_response platform
  else if containsSub question_lower "delete".data then
    deletion_response platform
  else if containsSub question_lower "share".data || containsSub question_lower "third party".data then
    sharing_response platform policy
  else
    catch_all_response platform policy

/-!
## Scraper data model (scraper.py)

The network is an explicit oracle: `page` models `session.get` of a page
followed by HTML parsing (`None` covers both exceptions and
`raise_for_status` on non-2xx responses); `headStatus` models
`session.head` (`none` is an exception); `content` models the GET plus
tag-stripping and text extraction of `_scrape_privacy_content`
(`Except.error` is an exception message); `title` models fetching the
root page title (`none` covers both an exception and a missing
`<title>` tag).
-/

structure Link where
  href : Str
  text : Str
deriving DecidableEq

structure Page where
  links : List Link
  footer : Option (List Link)
deriving DecidableEq

structure Net where
  page : Str → Option Page
  headStatus : Str → Option Nat
  content : Str → Except Str Str
  title : Str → Option Str

/-- A normalized input website address, as produced by the
`https://`-prefixing of `scrape_company_website` on a bare domain:
`urlparse` of it yields this scheme and netloc, and the fetched URL
equals the origin `scheme://netloc`. -/
structure Site where
  scheme : Str
  netloc : Str
deriving DecidableEq

/-- Worker for `removeAll`, structurally recursive on a fuel argument
so that it evaluates by kernel reduction; every step consumes at least
one character, so fuel equal to the string length never runs out. -/
def removeAllGo (pat : Str) : Nat → Str → Str
  | _, [] => []
  | 0, l => l
  | fuel + 1, c :: cs =>
    if pat ≠ [] ∧ pat.isPrefixOf (c :: cs) then
      removeAllGo pat fuel ((c :: cs).drop pat.length)
    else
      c :: removeAllGo pat fuel cs

/-- Python `s.replace(pat, '')`: delete every (non-overlapping,
leftmost-first) occurrence of `pat`.  The `pat ≠ []` guard only rules
out the empty pattern, which no call site uses. -/
def removeAll (pat : Str) (l : Str) : Str := removeAllGo pat l.length l

def domainOf (s : Site) : Str := removeAll "www.".data s.netloc

def baseUrl (s : Site) : Str := s.scheme ++ "://".data ++ s.netloc

/-- `KNOWN_PRIVACY_URLS` (scraper.py lines 19-25). -/
def known_privacy_urls : List (Str × Str) :=
  [("spotify.com".data, "https://www.spotify.com/legal/privacy-policy/".data),
   ("netflix.com".data, "https://help.netflix.com/legal/privacy".data),
   ("github.com".data, "https://docs.github.com/en/site-policy/privacy-policies/github-privacy-statement".data),
   ("airbnb.com".data, "https://www.airbnb.com/terms/privacy_policy".data),
   ("discord.com".data, "https://discord.com/privacy".data)]

def lookupKnown (domain : Str) : Option Str :=
  (known_privacy_urls.find? (fun kv => kv.1 == domain)).map (fun kv => kv.2)

/-- `PRIVACY_URL_PATTERNS` (lines 28-44). -/
def privacy_url_patterns : List Str :=
  ["/privacy".data, "/privacy-policy".data, "/privacy-notice".data,
   "/privacy.html".data, "/legal/privacy".data, "/legal/privacy-policy".data,
   "/terms/privacy".data, "/policy/privacy".data, "/about/privacy".data,
   "/help/privacy".data, "/support/privacy".data, "/info/privacy".data,
   "/personvern".data, "/datenschutz".data, "/confidentialite".data]

/-- The `legal_patterns` of Method 2.5 (line 238). -/
def legal_patterns : List Str :=
  ["/legal/privacy-policy".data, "/legal/privacy".data,
   "/help/privacy".data, "/support/privacy".data]

/-- `PRIVACY_KEYWORDS` (lines 47-50). -/
def privacy_keywords : List Str :=
  ["privacy".data, "policy".data, "personvern".data, "datenschutz".data,
   "confidentialité".data, "privacidad".data, "privacidade".data]

/-- Model of `urllib.parse.urljoin(base, href)` for the bases arising
here (bare origins): an absolute `href` is returned unchanged, a
root-relative one is appended to the origin, any other is resolved
against the origin root. -/
def urljoin (base href : Str) : Str :=
  if "http".data.isPrefixOf href then href
  else if "/".data.isPrefixOf href then base ++ href
  else base ++ "/".data ++ href

/-- `if full_url not in privacy_urls: privacy_urls.append(full_url)`. -/
def addUnique (acc : List Str) (u : Str) : List Str :=
  if u ∈ acc then acc else acc ++ [u]

/-- The link filter of Methods 1 and 3 (lines 215-223 and 253-260):
keep a link whose lower-cased href or visible text contains a privacy
keyword. -/
def link_matches_keywords (lk : Link) : Bool :=
  privacy_keywords.any (fun kw =>
    containsSub (lowerStr lk.href) kw || containsSub (lowerStr lk.text) kw)

def addLinkCandidate (base : Str) (acc : List Str) (lk : Link) : List Str :=
  if link_matches_keywords lk then addUnique acc (urljoin base lk.href)
  else acc

/-- One pattern probe of Methods 2 and 2.5 (lines 226-248): a HEAD
request answering exactly 200 adds the probed URL; an exception or any
other status contributes nothing. -/
def addProbeCandidate (net : Net) (base : Str) (acc : List Str) (pat : Str) : List Str :=
  match net.headStatus (base ++ pat) with
  | some 200 => addUnique acc (base ++ pat)
  | _ => acc

/-- The known-table step (lines 199-204), run before the `try` block. -/
def knownStart (s : Site) : List Str :=
  match lookupKnown (domainOf s) with
  | some known_url => [known_url]
  | none => []

/-- The full accumulation of `privacy_urls` in
`_find_privacy_policy_urls` (lines 195-260), in first-seen order,
when the root page fetch succeeded with page `p`. -/
def accumulateCandidates (net : Net) (s : Site) (p : Page) : List Str :=
  let base := baseUrl s
  let acc := knownStart s
  let acc := p.links.foldl (addLinkCandidate base) acc
  let acc := privacy_url_patterns.foldl (addProbeCandidate net base) acc
  let acc := legal_patterns.foldl (addProbeCandidate net base) acc
  match p.footer with
  | some links => links.foldl (addLinkCandidate base) acc
  | none => acc

/-- `url_relevance` (lines 263-270). -/
def url_relevance (url : Str) : Nat :=
  let url_lower := lowerStr url
  if containsSub url_lower "privacy-policy".data then 0
  else if containsSub url_lower "privacy".data then 1
  else 2

/-- `privacy_urls.sort(key=url_relevance)` (line 272).  Python's sort is
stable, and a stable sort by a key with range 0-2 is exactly the
concatenation of the key's preimage buckets in original order. -/
def stableSortByRelevance (l : List Str) : List Str :=
  l.filter (fun u => url_relevance u == 0) ++
  l.filter (fun u => url_relevance u == 1) ++
  l.filter (fun u => url_relevance u == 2)

/-- `_find_privacy_policy_urls` (lines 195-279).  On a root-page fetch
failure the source's `except` handler (lines 277-279) returns the empty
list, discarding the already-appended known-table candidate, so the
known-table step only matters on the success path. -/
def find_privacy_policy_urls (net : Net) (s : Site) : List Str :=
  match net.page (baseUrl s) with
  | none => []
  | some p => (stableSortByRelevance (accumulateCandidates net s p)).take 5

/-- The `privacy_urls` list of a discovery run just before the sort at
line 272 (empty when the root fetch failed). -/
def discovered (net : Net) (s : Site) : List Str :=
  match net.page (baseUrl s) with
  | none => []
  | some p => accumulateCandidates net s p

/-- Result record of `_scrape_privacy_content`; `error`, `length` and
`url` are keys that only some of the source's result dicts carry. -/
structure ScrapeAttempt where
  scraped : Bool
  text : Str
  error : Option Str
  length : Option Nat
  url : Option Str
deriving DecidableEq

/-- The policy-indicator sanity terms (line 311). -/
def privacy_indicators : List Str :=
  ["privacy".data, "personal data".data, "information".data,
   "collect".data, "use".data, "share".data]

/-- `_scrape_privacy_content` (lines 281-340).  The GET plus HTML
cleaning (tag stripping, main-content selection, whitespace collapsing)
is folded into the oracle `net.content`. -/
def scrape_privacy_content (net : Net) (privacy_url : Str) : ScrapeAttempt :=
  match net.content privacy_url with
  | Except.error e =>
    { scraped := false, text := "Failed to scrape ".data ++ privacy_url,
      error := some e, length := none, url := none }
  | Except.ok text =>
    if text.length < 500 then
      { scraped := false, text := text.take 500,
        error := some "Content too short to be a privacy policy".data,
        length := none, url := none }
    else if !(anyTermIn (lowerStr text) privacy_indicators) then
      { scraped := false, text := text.take 500,
        error := some "Content doesn\x27t appear to be a privacy policy".data,
        length := none, url := none }
    else
      { scraped := true, text := text.take 10000, error := none,
        length := some text.length, url := some privacy_url }

/-- The retrieval loop of `scrape_company_website` (lines 150-164): try
the candidates in order, stop at the first success, remember the last
attempt's data; `none` means the loop body never ran. -/
def try_candidates (net : Net) : List Str → Option (Option Str × ScrapeAttempt)
  | [] => none
  | u :: rest =>
    let policy_data := scrape_privacy_content net u
    if policy_data.scraped then some (some u, policy_data)
    else
      match try_candidates net rest with
      | none => some (none, policy_data)
      | some r => some r

/-- Python `str.capitalize()`: first character upper-cased, the rest
lower-cased. -/
def pyCapitalize : Str → Str
  | [] => []
  | c :: cs => Char.toUpper c :: cs.map Char.toLower

/-- Python `str.strip()` (whitespace on both ends). -/
def pyStrip (s : Str) : Str :=
  ((s.dropWhile Char.isWhitespace).reverse.dropWhile Char.isWhitespace).reverse

/-- `title_text.split(sep)[0]`: the text before the first occurrence of
`sep` (the whole string when `sep` does not occur). -/
def beforeFirst (sep : Str) : Str → Str
  | [] => []
  | c :: cs =>
    if sep ≠ [] ∧ sep.isPrefixOf (c :: cs) then []
    else c :: beforeFirst sep cs

def title_separators : List Str :=
  [" | ".data, " - ".data, " – ".data, " — ".data]

/-- The TLD stripping of `_extract_company_name` (line 347). -/
def tld_strip (netloc : Str) : Str :=
  removeAll ".org".data (removeAll ".no".data (removeAll ".com".data (removeAll "www.".data netloc)))

/-- `_extract_company_name` (lines 342-372): a domain-derived baseline
name, overridden by the page title (text before the first separator)
when the root page and its title are available. -/
def extract_company_name (net : Net) (s : Site) : Str :=
  let domain := tld_strip s.netloc
  let company_name := pyCapitalize (domain.takeWhile (fun c => c ≠ '.'))
  match net.title (baseUrl s) with
  | none => company_name
  | some title_text =>
    match title_separators.find? (fun sep => containsSub title_text sep) with
    | some sep => pyStrip (beforeFirst sep title_text)
    | none => pyStrip title_text

/-- Result record of `scrape_company_website`; `found_urls` is a key
only the success-path dict carries, and the `scraped_at` timestamp is
omitted from the model. -/
structure CompanyScrape where
  company_website : Str
  company_name : Str
  privacy_url : Option Str
  scraped : Bool
  text : Str
  error : Option Str
  found_urls : Option (List Str)
deriving DecidableEq

/-- `scrape_company_website` (lines 120-193) for a normalized bare
domain.  The outer `except` (lines 184-193) is unreachable in this pure
model because every network effect is already handled inside the
oracles. -/
def scrape_company_website (net : Net) (s : Site) : CompanyScrape :=
  let privacy_urls := find_privacy_policy_urls net s
  if privacy_urls = [] then
    { company_website := baseUrl s,
      company_name := extract_company_name net s,
      privacy_url := none,
      scraped := false,
      text := "Could not locate privacy policy on this website".data,
      error := some "No privacy policy URL found".data,
      found_urls := none }
  else
    match try_candidates net (privacy_urls.take 3) with
    | none =>
      -- dead in the source as well (lines 165-168): the loop always runs
      -- at least once when the candidate list is non-empty
      { company_website := baseUrl s,
        company_name := extract_company_name net s,
        privacy_url := privacy_urls.head?,
        scraped := false,
        text := [],
        error := some "No privacy policy URLs accessible".data,
        found_urls := some privacy_urls }
    | some (successful_url, policy_data) =>
      { company_website := baseUrl s,
        company_name := extract_company_name net s,
        privacy_url := successful_url,
        scraped := policy_data.scraped,
        text := policy_data.text,
        error := policy_data.error,
        found_urls := some privacy_urls }

/-!
## Reference definitions written from the specification's wording

These two are NOT translated from the source: they restate the scoring
rules the way the specification describes them (a baseline plus one
signed weight per matched rule group, clamped to [0, 100]) and are
proved equal to the source-derived scorers.
-/

/-- Raw-text scoring as the specification words it: baseline 30, add a
weighted penalty per matched concerning group (sell +25, third-party
+15, tracking +15, location +10, biometric +20, indefinite retention
+15), subtract a bonus per matched good-practice group (GDPR −10,
deletion −5, opt-out −5), clamp to [0, 100]. -/
def rawTextScoreRef (text : Str) : Int :=
  min (max (30
    + (if anyTermIn (lowerStr text) sell_terms then 25 else 0)
    + (if anyTermIn (lowerStr text) third_party_terms then 15 else 0)
    + (if anyTermIn (lowerStr text) track_terms then 15 else 0)
    + (if anyTermIn (lowerStr text) location_terms then 10 else 0)
    + (if anyTermIn (lowerStr text) biometric_terms then 20 else 0)
    + (if anyTermIn (lowerStr text) indefinite_terms then 15 else 0)
    - (if anyTermIn (lowerStr text) gdpr_terms then 10 else 0)
    - (if anyTermIn (lowerStr text) delete_terms then 5 else 0)
    - (if anyTermIn (lowerStr text) opt_out_terms then 5 else 0)) 0) 100

/-- Structured-policy scoring as the specification words it: baseline
70, subtract a weight in 10-15 per matched bad-practice field
(indefinite retention −15, more than 6 data types −10, advertising in
the sharing text −10), clamp to [0, 100]. -/
def structuredScoreRef (policy : Policy) : Int :=
  max 0 (min 100 (70
    - (if containsSub (lowerStr (policy.retention.getD [])) ("indefinitely".data) then 15 else 0)
    - (if 6 < (policy.data_types.getD []).length then 10 else 0)
    - (if containsSub (lowerStr (policy.sharing.getD [])) ("advertising".data) then 10 else 0)))

/-!
## Concrete discovery scenarios used by counterexamples and witnesses
-/

/-- The normalized input `https://www.netflix.com` — a domain with a
known-table entry whose canonical URL contains `privacy` but not
`privacy-policy`. -/
def exNetflixSite : Site := { scheme := "https".data, netloc := "www.netflix.com".data }

/-- A root page with a single privacy link whose URL contains the
higher-relevance phrase `privacy-policy`. -/
def exNetflixPage : Page :=
  { links := [{ href := "https://www.netflix.com/privacy-policy".data,
                text := "Privacy Policy".data }],
    footer := none }

/-- A network in which the netflix root page loads (serving
`exNetflixPage`) and every HEAD probe and content fetch fails. -/
def exNetflixNet : Net :=
  { page := fun u => if u = baseUrl exNetflixSite then some exNetflixPage else none,
    headStatus := fun _ => none,
    content := fun _ => Except.error "connection refused".data,
    title := fun _ => none }

/-- A network in which every request fails. -/
def exDownNet : Net :=
  { page := fun _ => none,
    headStatus := fun _ => none,
    content := fun _ => Except.error "timeout".data,
    title := fun _ => none }

/-- The normalized input `https://www.spotify.com` — a domain whose
known canonical URL contains `privacy-policy` (relevance rank 0). -/
def exSpotifySite : Site := { scheme := "https".data, netloc := "www.spotify.com".data }

/-- A root page with no hyperlinks and no footer. -/
def exEmptyPage : Page := { links := [], footer := none }

/-- A network in which the spotify root page loads as an empty page and
everything else fails. -/
def exSpotifyNet : Net :=
  { page := fun u => if u = baseUrl exSpotifySite then some exEmptyPage else none,
    headStatus := fun _ => none,
    content := fun _ => Except.error "err".data,
    title := fun _ => none }

/-!
## Helper lemmas
-/

theorem ite_add_shift (p : Prop) [Decidable p] (s k : Int) :
    (if p then s + k else s) = s + (if p then k else 0) := by
  split <;> simp

theorem ite_sub_shift (p : Prop) [Decidable p] (s k : Int) :
    (if p then s - k else s) = s - (if p then k else 0) := by
  split <;> simp

theorem ite_le_ite_of_imp {p q : Prop} [Decidable p] [Decidable q] {k : Int}
    (hk : 0 ≤ k) (h : p → q) : (if p then k else 0) ≤ (if q then k else 0) := by
  by_cases hp : p
  · rw [if_pos hp, if_pos (h hp)]
  · rw [if_neg hp]
    by_cases hq : q
    · rw [if_pos hq]; exact hk
    · rw [if_neg hq]

/-- The raw-text scorer's sequential accumulation equals the
specification-style sum form. -/
theorem calculate_score_from_text_eq (text : Str) :
    calculate_score_from_text text = rawTextScoreRef text := by
  unfold calculate_score_from_text rawTextScoreRef
  simp only [ite_add_shift, ite_sub_shift]

/-- The structured scorer's sequential accumulation equals the
specification-style sum form. -/
theorem calculate_score_eq (policy : Policy) :
    calculate_score policy = structuredScoreRef policy := by
  unfold calculate_score structuredScoreRef
  simp only [ite_sub_shift]

/-- C1: for every text input and every structured policy profile, the
analyzer's returned score is clamped into [0, 100]: both the raw-text
scorer `_calculate_score_from_text` and the structured scorer
`_calculate_score` bound their result by 0 and 100 before returning. -/
theorem score_in_range (text : Str) (policy : Policy) :
    0 ≤ calculate_score_from_text text ∧ calculate_score_from_text text ≤ 100 ∧
    0 ≤ calculate_score policy ∧ calculate_score policy ≤ 100 := by
  refine ⟨?_, ?_, ?_, ?_⟩
  · show 0 ≤ min (max _ 0) 100
    exact le_min (le_max_right _ 0) (by norm_num)
  · exact min_le_right _ _
  · exact le_max_left 0 _
  · exact max_le (by norm_num) (min_le_left _ _)

/-- C2: the raw-text scorer equals the reference definition (baseline
30, weighted additive penalties, subtractive bonuses, clamp), and any
text containing "sell", "third party" and "biometric" that matches no
other penalty or bonus group scores exactly 90. -/
theorem raw_text_scorer_matches_ref (text : Str) :
    calculate_score_from_text text = rawTextScoreRef text ∧
    (containsSub (lowerStr text) ("sell".data) = true →
     containsSub (lowerStr text) ("third party".data) = true →
     containsSub (lowerStr text) ("biometric".data) = true →
     anyTermIn (lowerStr text) track_terms = false →
     anyTermIn (lowerStr text) location_terms = false →
     anyTermIn (lowerStr text) indefinite_terms = false →
     anyTermIn (lowerStr text) gdpr_terms = false →
     anyTermIn (lowerStr text) delete_terms = false →
     anyTermIn (lowerStr text) opt_out_terms = false →
     calculate_score_from_text text = 90) := by
  refine ⟨calculate_score_from_text_eq text, ?_⟩
  intro h1 h2 h3 h4 h5 h6 h7 h8 h9
  have hsell : anyTermIn (lowerStr text) sell_terms = true := by
    unfold anyTermIn sell_terms
    simp [h1]
  have hthird : anyTermIn (lowerStr text) third_party_terms = true := by
    unfold anyTermIn third_party_terms
    simp [h2]
  have hbio : anyTermIn (lowerStr text) biometric_terms = true := by
    unfold anyTermIn biometric_terms
    simp [h3]
  rw [calculate_score_from_text_eq]
  unfold rawTextScoreRef
  rw [hsell, hthird, hbio, h4, h5, h6, h7, h8, h9]
  norm_num

/-- Witness for C2: a concrete sell + third-party + biometric text
scores exactly 90. -/
theorem raw_text_scorer_matches_ref_witness :
    calculate_score_from_text ("we sell data to third party brokers and collect biometric samples".data) = 90 :=
  (raw_text_scorer_matches_ref _).2 (by decide) (by decide) (by decide) (by decide)
    (by decide) (by decide) (by decide) (by decide) (by decide)

/-- C5: holding the matched bonus (good-practice) groups fixed, the
raw-text score is monotonically non-decreasing in the set of matched
penalty groups: if `t2` matches every penalty group `t1` matches and
exactly the same bonus groups, then `t2` scores at least `t1`. -/
theorem raw_score_monotone_in_penalties (t1 t2 : Str)
    (hsell : anyTermIn (lowerStr t1) sell_terms = true →
             anyTermIn (lowerStr t2) sell_terms = true)
    (hthird : anyTermIn (lowerStr t1) third_party_terms = true →
              anyTermIn (lowerStr t2) third_party_terms = true)
    (htrack : anyTermIn (lowerStr t1) track_terms = true →
              anyTermIn (lowerStr t2) track_terms = true)
    (hloc : anyTermIn (lowerStr t1) location_terms = true →
            anyTermIn (lowerStr t2) location_terms = true)
    (hbio : anyTermIn (lowerStr t1) biometric_terms = true →
            anyTermIn (lowerStr t2) biometric_terms = true)
    (hindef : anyTermIn (lowerStr t1) indefinite_terms = true →
              anyTermIn (lowerStr t2) indefinite_terms = true)
    (hgdpr : anyTermIn (lowerStr t1) gdpr_terms = anyTermIn (lowerStr t2) gdpr_terms)
    (hdel : anyTermIn (lowerStr t1) delete_terms = anyTermIn (lowerStr t2) delete_terms)
    (hopt : anyTermIn (lowerStr t1) opt_out_terms = anyTermIn (lowerStr t2) opt_out_terms) :
    calculate_score_from_text t1 ≤ calculate_score_from_text t2 := by
  rw [calculate_score_from_text_eq, calculate_score_from_text_eq]
  unfold rawTextScoreRef
  rw [hgdpr, hdel, hopt]
  refine min_le_min (max_le_max ?_ le_rfl) le_rfl
  have i1 := ite_le_ite_of_imp (k := (25 : Int)) (by norm_num) hsell
  have i2 := ite_le_ite_of_imp (k := (15 : Int)) (by norm_num) hthird
  have i3 := ite_le_ite_of_imp (k := (15 : Int)) (by norm_num) htrack
  have i4 := ite_le_ite_of_imp (k := (10 : Int)) (by norm_num) hloc
  have i5 := ite_le_ite_of_imp (k := (20 : Int)) (by norm_num) hbio
  have i6 := ite_le_ite_of_imp (k := (15 : Int)) (by norm_num) hindef
  linarith

/-- Witness for C5: adding a sell term to a tracking-only text does not
decrease the raw-text risk score. -/
theorem raw_score_monotone_in_penalties_witness :
    calculate_score_from_text ("we track users".data) ≤
    calculate_score_from_text ("we track users and sell data".data) :=
  raw_score_monotone_in_penalties _ _ (by decide) (by decide) (by decide) (by decide)
    (by decide) (by decide) (by decide) (by decide) (by decide)

/-- C6: the structured scorer equals the reference definition (baseline
70, subtract 15/10/10 for indefinite retention, more than 6 data types,
advertising sharing, clamp), and it is monotonically non-increasing in
the set of matched bad-practice fields. -/
theorem structured_score_monotone :
    (∀ policy : Policy, calculate_score policy = structuredScoreRef policy) ∧
    (∀ p1 p2 : Policy,
      (containsSub (lowerStr (p1.retention.getD [])) ("indefinitely".data) = true →
       containsSub (lowerStr (p2.retention.getD [])) ("indefinitely".data) = true) →
      (6 < (p1.data_types.getD []).length → 6 < (p2.data_types.getD []).length) →
      (containsSub (lowerStr (p1.sharing.getD [])) ("advertising".data) = true →
       containsSub (lowerStr (p2.sharing.getD [])) ("advertising".data) = true) →
      calculate_score p2 ≤ calculate_score p1) := by
  constructor
  · exact calculate_score_eq
  · intro p1 p2 hret hcount hshare
    rw [calculate_score_eq, calculate_score_eq]
    unfold structuredScoreRef
    refine max_le_max le_rfl (min_le_min le_rfl ?_)
    have i1 := ite_le_ite_of_imp (k := (15 : Int)) (by norm_num) hret
    have i2 := ite_le_ite_of_imp (k := (10 : Int)) (by norm_num) hcount
    have i3 := ite_le_ite_of_imp (k := (10 : Int)) (by norm_num) hshare
    linarith

/-- Witness for C6: a profile with indefinite retention scores at most a
profile with the same other fields and benign retention. -/
theorem structured_score_monotone_witness :
    calculate_score
      { text := [], data_types := none, sharing := none,
        retention := some ("retained indefinitely".data), concerns := none } ≤
    calculate_score
      { text := [], data_types := none, sharing := none,
        retention := some ("deleted upon request".data), concerns := none } :=
  structured_score_monotone.2
    { text := [], data_types := none, sharing := none,
      retention := some ("deleted upon request".data), concerns := none }
    { text := [], data_types := none, sharing := none,
      retention := some ("retained indefinitely".data), concerns := none }
    (by decide) (by decide) (by decide)

/-- C9: the two public raw-text entry points are score-equivalent — the
`score` fields of `summarize_policy_from_text` and
`analyze_scraped_policy` on the same text both resolve to the effective
(second, baseline-30) `_calculate_score_from_text`, because in a Python
class body the later definition shadows the earlier one; the shadowed
baseline-70 definition computes something different (already on the
empty text). -/
theorem entry_points_score_equivalent :
    (∀ text platform company : Str,
      (summarize_policy_from_text text platform).score =
        (analyze_scraped_policy text company).score ∧
      (summarize_policy_from_text text platform).score =
        calculate_score_from_text text) ∧
    calculate_score_from_text [] ≠ calculate_score_from_text_v1 [] := by
  refine ⟨fun text platform company => ⟨rfl, rfl⟩, by decide⟩

/-- C10: `_extract_positives` ignores its policy argument and returns
one constant string, so the `positives` field of both `summarize_policy`
and `summarize_policy_from_text` never varies with the input. -/
theorem positives_constant :
    (∀ policy : Policy, extract_positives policy =
      "✓ Allows data deletion requests\n✓ Provides privacy controls\n✓ GDPR compliant".data) ∧
    (∀ (fs : Str → Option Policy) (platform : Str),
      (summarize_policy fs platform).positives =
      "✓ Allows data deletion requests\n✓ Provides privacy controls\n✓ GDPR compliant".data) ∧
    (∀ text platform : Str,
      (summarize_policy_from_text text platform).positives =
      "✓ Allows data deletion requests\n✓ Provides privacy controls\n✓ GDPR compliant".data) :=
  ⟨fun _ => rfl, fun _ _ => rfl, fun _ _ => rfl⟩

/-!
## Discovery helper lemmas
-/

theorem addUnique_extends (acc : List Str) (u : Str) :
    ∃ t, addUnique acc u = acc ++ t := by
  unfold addUnique
  split
  · exact ⟨[], by simp⟩
  · exact ⟨[u], rfl⟩

theorem addLinkCandidate_extends (base : Str) (acc : List Str) (lk : Link) :
    ∃ t, addLinkCandidate base acc lk = acc ++ t := by
  unfold addLinkCandidate
  split
  · exact addUnique_extends acc _
  · exact ⟨[], by simp⟩

theorem addProbeCandidate_extends (net : Net) (base : Str) (acc : List Str) (pat : Str) :
    ∃ t, addProbeCandidate net base acc pat = acc ++ t := by
  unfold addProbeCandidate
  split
  · exact addUnique_extends acc _
  · exact ⟨[], by simp⟩

theorem foldl_extends {β : Type} {f : List Str → β → List Str}
    (hf : ∀ acc x, ∃ t, f acc x = acc ++ t) :
    ∀ (l : List β) (acc : List Str), ∃ t, l.foldl f acc = acc ++ t := by
  intro l
  induction l with
  | nil => exact fun acc => ⟨[], by simp⟩
  | cons x xs ih =>
    intro acc
    obtain ⟨t1, h1⟩ := hf acc x
    obtain ⟨t2, h2⟩ := ih (f acc x)
    refine ⟨t1 ++ t2, ?_⟩
    rw [List.foldl_cons, h2, h1, List.append_assoc]

/-- Every accumulation step of `_find_privacy_policy_urls` only appends,
so the known-table seed stays an initial segment. -/
theorem accumulateCandidates_extends (net : Net) (s : Site) (p : Page) :
    ∃ t, accumulateCandidates net s p = knownStart s ++ t := by
  unfold accumulateCandidates
  dsimp only
  obtain ⟨t1, h1⟩ :=
    foldl_extends (fun acc lk => addLinkCandidate_extends (baseUrl s) acc lk) p.links (knownStart s)
  obtain ⟨t2, h2⟩ :=
    foldl_extends (fun acc pa => addProbeCandidate_extends net (baseUrl s) acc pa)
      privacy_url_patterns (p.links.foldl (addLinkCandidate (baseUrl s)) (knownStart s))
  obtain ⟨t3, h3⟩ :=
    foldl_extends (fun acc pa => addProbeCandidate_extends net (baseUrl s) acc pa)
      legal_patterns (privacy_url_patterns.foldl (addProbeCandidate net (baseUrl s))
        (p.links.foldl (addLinkCandidate (baseUrl s)) (knownStart s)))
  cases hfoot : p.footer with
  | none =>
    refine ⟨t1 ++ t2 ++ t3, ?_⟩
    dsimp only
    rw [h3, h2, h1]
    simp [List.append_assoc]
  | some links =>
    obtain ⟨t4, h4⟩ :=
      foldl_extends (fun acc lk => addLinkCandidate_extends (baseUrl s) acc lk) links
        (legal_patterns.foldl (addProbeCandidate net (baseUrl s))
          (privacy_url_patterns.foldl (addProbeCandidate net (baseUrl s))
            (p.links.foldl (addLinkCandidate (baseUrl s)) (knownStart s))))
    refine ⟨t1 ++ t2 ++ t3 ++ t4, ?_⟩
    dsimp only
    rw [h4, h3, h2, h1]
    simp [List.append_assoc]

theorem accumulateCandidates_known_cons (net : Net) (s : Site) (p : Page) (u : Str)
    (hknown : lookupKnown (domainOf s) = some u) :
    ∃ rest, accumulateCandidates net s p = u :: rest := by
  obtain ⟨t, ht⟩ := accumulateCandidates_extends net s p
  refine ⟨t, ?_⟩
  rw [ht]
  unfold knownStart
  rw [hknown]
  rfl

theorem url_relevance_cases (u : Str) :
    url_relevance u = 0 ∨ url_relevance u = 1 ∨ url_relevance u = 2 := by
  unfold url_relevance
  dsimp only
  split
  · exact Or.inl rfl
  · split
    · exact Or.inr (Or.inl rfl)
    · exact Or.inr (Or.inr rfl)

/-- In the stable two-tier sort, a first-seen candidate of minimal
relevance rank ends up first. -/
theorem stableSort_head_of_min (u : Str) (rest : List Str)
    (hmin : ∀ v ∈ u :: rest, url_relevance u ≤ url_relevance v) :
    (stableSortByRelevance (u :: rest)).head? = some u := by
  unfold stableSortByRelevance
  rcases url_relevance_cases u with h0 | h1 | h2
  · rw [List.filter_cons_of_pos (by simp [h0])]
    rfl
  · have f0 : (u :: rest).filter (fun v => url_relevance v == 0) = [] := by
      rw [List.filter_eq_nil_iff]
      intro v hv
      simp only [beq_iff_eq]
      intro hv0
      have hle := hmin v hv
      omega
    rw [f0, List.filter_cons_of_pos (by simp [h1])]
    rfl
  · have f0 : (u :: rest).filter (fun v => url_relevance v == 0) = [] := by
      rw [List.filter_eq_nil_iff]
      intro v hv
      simp only [beq_iff_eq]
      intro hv0
      have hle := hmin v hv
      omega
    have f1 : (u :: rest).filter (fun v => url_relevance v == 1) = [] := by
      rw [List.filter_eq_nil_iff]
      intro v hv
      simp only [beq_iff_eq]
      intro hv1
      have hle := hmin v hv
      omega
    rw [f0, f1, List.filter_cons_of_pos (by simp [h2])]
    rfl

theorem head?_take_five (l : List Str) : (l.take 5).head? = l.head? := by
  cases l <;> rfl

theorem mem_filter_rank {l : List Str} {k : Nat} {a : Str}
    (ha : a ∈ l.filter (fun u => url_relevance u == k)) : url_relevance a = k := by
  have := List.of_mem_filter ha
  simpa using this

/-- The two-tier (plus remainder) bucket sort is sorted by relevance. -/
theorem stableSort_pairwise (l : List Str) :
    (stableSortByRelevance l).Pairwise (fun a b => url_relevance a ≤ url_relevance b) := by
  unfold stableSortByRelevance
  rw [List.pairwise_append]
  refine ⟨?_, ?_, ?_⟩
  · rw [List.pairwise_append]
    refine ⟨?_, ?_, ?_⟩
    · exact List.pairwise_of_forall_mem_list
        (fun a ha b hb => by rw [mem_filter_rank ha, mem_filter_rank hb])
    · exact List.pairwise_of_forall_mem_list
        (fun a ha b hb => by rw [mem_filter_rank ha, mem_filter_rank hb])
    · intro a ha b hb
      rw [mem_filter_rank ha, mem_filter_rank hb]
      omega
  · exact List.pairwise_of_forall_mem_list
      (fun a ha b hb => by rw [mem_filter_rank ha, mem_filter_rank hb])
  · intro a ha b hb
    rcases List.mem_append.mp ha with h0 | h1
    · rw [mem_filter_rank h0, mem_filter_rank hb]
      omega
    · rw [mem_filter_rank h1, mem_filter_rank hb]
      omega

theorem filter_rank_and_ne (l : List Str) (j k : Nat) (h : j ≠ k) :
    l.filter (fun a => (url_relevance a == k) && (url_relevance a == j)) = [] := by
  rw [List.filter_eq_nil_iff]
  intro a _
  simp only [Bool.and_eq_true, beq_iff_eq, not_and]
  intro hk hj
  exact h (hj.symm.trans hk)

/-- Filtering a relevance tier out of the bucket sort recovers exactly
the same tier of the unsorted list, in the same order. -/
theorem stableSort_filter_eq (l : List Str) (k : Nat) :
    (stableSortByRelevance l).filter (fun u => url_relevance u == k) =
    l.filter (fun u => url_relevance u == k) := by
  unfold stableSortByRelevance
  rw [List.filter_append, List.filter_append,
    List.filter_filter, List.filter_filter, List.filter_filter]
  match k with
  | 0 =>
    rw [filter_rank_and_ne l 1 0 (by omega), filter_rank_and_ne l 2 0 (by omega)]
    simp [Bool.and_self]
  | 1 =>
    rw [filter_rank_and_ne l 0 1 (by omega), filter_rank_and_ne l 2 1 (by omega)]
    simp [Bool.and_self]
  | 2 =>
    rw [filter_rank_and_ne l 0 2 (by omega), filter_rank_and_ne l 1 2 (by omega)]
    simp [Bool.and_self]
  | (n + 3) =>
    rw [filter_rank_and_ne l 0 (n + 3) (by omega), filter_rank_and_ne l 1 (n + 3) (by omega),
      filter_rank_and_ne l 2 (n + 3) (by omega)]
    have : l.filter (fun u => url_relevance u == n + 3) = [] := by
      rw [List.filter_eq_nil_iff]
      intro a _
      simp only [beq_iff_eq]
      rcases url_relevance_cases a with h | h | h <;> omega
    rw [this]
    rfl

/-- C3 (amended): for a domain with a known-table entry, when the root
page fetch succeeds and no other accumulated candidate has a strictly
better relevance rank than the canonical URL, discovery returns the
canonical URL as the first element of the candidate list. -/
theorem known_url_first_when_top_ranked (net : Net) (s : Site) (u : Str) (p : Page)
    (hknown : lookupKnown (domainOf s) = some u)
    (hpage : net.page (baseUrl s) = some p)
    (hmin : ∀ v ∈ accumulateCandidates net s p, url_relevance u ≤ url_relevance v) :
    (find_privacy_policy_urls net s).head? = some u := by
  obtain ⟨rest, hacc⟩ := accumulateCandidates_known_cons net s p u hknown
  unfold find_privacy_policy_urls
  rw [hpage]
  dsimp only
  rw [hacc] at hmin ⊢
  rw [head?_take_five]
  exact stableSort_head_of_min u rest hmin

/-- Counterexample to C3 as stated: `netflix.com` is in the known
table, its root page links to a URL containing `privacy-policy`, and
after the relevance sort that scraped URL — not the canonical known
URL — is the first candidate. -/
theorem known_url_not_first_counterexample :
    lookupKnown (domainOf exNetflixSite) = some ("https://help.netflix.com/legal/privacy".data) ∧
    (find_privacy_policy_urls exNetflixNet exNetflixSite).head? ≠
      some ("https://help.netflix.com/legal/privacy".data) := by
  constructor
  · decide
  · decide

/-- Witness for C3 (amended): for `spotify.com`, whose canonical URL
contains `privacy-policy` (rank 0), the canonical URL comes first. -/
theorem known_url_first_when_top_ranked_witness :
    (find_privacy_policy_urls exSpotifyNet exSpotifySite).head? =
      some ("https://www.spotify.com/legal/privacy-policy/".data) :=
  known_url_first_when_top_ranked exSpotifyNet exSpotifySite
    ("https://www.spotify.com/legal/privacy-policy/".data) exEmptyPage
    (by decide) (by decide) (by decide)

/-- C4 (amended): per-step failure semantics of discovery for a domain
with a known-table entry.  A failure fetching the root page is fatal:
discovery returns the empty candidate list, dropping even the known
candidate.  Within a successful run, failures are non-fatal: the known
candidate is in the accumulated list regardless of the HEAD probes'
outcomes, and a failed scrape of one candidate falls through to the
next; an empty candidate list is surfaced by `scrape_company_website`
as the discovery failure "No privacy policy URL found". -/
theorem discovery_failure_semantics (net : Net) (s : Site) (u : Str)
    (hknown : lookupKnown (domainOf s) = some u) :
    (net.page (baseUrl s) = none → find_privacy_policy_urls net s = []) ∧
    (∀ p : Page, net.page (baseUrl s) = some p → u ∈ accumulateCandidates net s p) ∧
    (∀ (u1 u2 : Str) (rest : List Str),
      (scrape_privacy_content net u1).scraped = false →
      (scrape_privacy_content net u2).scraped = true →
      try_candidates net (u1 :: u2 :: rest) =
        some (some u2, scrape_privacy_content net u2)) ∧
    (find_privacy_policy_urls net s = [] →
      (scrape_company_website net s).scraped = false ∧
      (scrape_company_website net s).error = some ("No privacy policy URL found".data)) := by
  refine ⟨?_, ?_, ?_, ?_⟩
  · intro h
    unfold find_privacy_policy_urls
    rw [h]
  · intro p _
    obtain ⟨rest, hacc⟩ := accumulateCandidates_known_cons net s p u hknown
    rw [hacc]
    exact List.mem_cons_self u rest
  · intro u1 u2 rest h1 h2
    simp only [try_candidates, h1, h2]
    simp
  · intro hempty
    unfold scrape_company_website
    rw [hempty]
    exact ⟨rfl, rfl⟩

/-- Counterexample to C4 as stated: for the known domain `netflix.com`,
a network in which the root page fetch fails makes discovery return the
empty list — the known candidate is NOT left in the returned list. -/
theorem known_candidate_dropped_counterexample :
    lookupKnown (domainOf exNetflixSite) = some ("https://help.netflix.com/legal/privacy".data) ∧
    exDownNet.page (baseUrl exNetflixSite) = none ∧
    ("https://help.netflix.com/legal/privacy".data) ∉
      find_privacy_policy_urls exDownNet exNetflixSite := by
  refine ⟨by decide, rfl, by decide⟩

/-- Witness for C4 (amended): the root-fetch-failure conjunct at the
concrete netflix scenario. -/
theorem discovery_failure_semantics_witness :
    find_privacy_policy_urls exDownNet exNetflixSite = [] :=
  (discovery_failure_semantics exDownNet exNetflixSite
    ("https://help.netflix.com/legal/privacy".data) (by decide)).1 rfl

/-- C7: every discovery run returns a candidate list sorted by the
two-tier relevance rule (URLs containing `privacy-policy`, then URLs
containing only `privacy`, then the rest), and within each tier the
first-seen accumulation order is preserved (the returned tier is a
subsequence of the accumulated tier). -/
theorem candidates_sorted_two_tier (net : Net) (s : Site) :
    (find_privacy_policy_urls net s).Pairwise
      (fun a b => url_relevance a ≤ url_relevance b) ∧
    ∀ k : Nat,
      List.Sublist
        ((find_privacy_policy_urls net s).filter (fun u => url_relevance u == k))
        ((discovered net s).filter (fun u => url_relevance u == k)) := by
  unfold find_privacy_policy_urls discovered
  cases hp : net.page (baseUrl s) with
  | none => exact ⟨List.Pairwise.nil, fun k => by simp⟩
  | some p =>
    dsimp only
    constructor
    · exact List.Pairwise.sublist (List.take_sublist 5 _) (stableSort_pairwise _)
    · intro k
      have h1 := List.Sublist.filter (fun u => url_relevance u == k)
        (List.take_sublist 5 (stableSortByRelevance (accumulateCandidates net s p)))
      rw [stableSort_filter_eq] at h1
      exact h1

/-- C8 (amended): a question containing "delete" (case-insensitively)
routes to the deletion-intent template — provided no higher-priority
intent keyword ("risky", "dangerous", "protect", "privacy") also
occurs in the question — and the deletion response mentions the subject
(platform) name. -/
theorem delete_intent_priority_routing (question platform : Str) (policy : Policy)
    (hdel : containsSub (lowerStr question) ("delete".data) = true)
    (hrisky : containsSub (lowerStr question) ("risky".data) = false)
    (hdanger : containsSub (lowerStr question) ("dangerous".data) = false)
    (hprotect : containsSub (lowerStr question) ("protect".data) = false)
    (hpriv : containsSub (lowerStr question) ("privacy".data) = false) :
    generate_mock_chat_response question platform policy = deletion_response platform ∧
    ∃ pre post : Str,
      generate_mock_chat_response question platform policy = pre ++ platform ++ post := by
  have hroute : generate_mock_chat_response question platform policy = deletion_response platform := by
    unfold generate_mock_chat_response
    dsimp only
    rw [hrisky, hdanger, hprotect, hpriv, hdel]
    simp
  refine ⟨hroute, "📱 To delete your ".data,
    " data:\n• Go to account settings\n• Look for \x27Delete Account\x27 or \x27Data & Privacy\x27\n• Download your data first if needed\n• Note: Some data may be retained for legal purposes".data, ?_⟩
  rw [hroute]
  rfl

/-- Counterexample to C8 as stated: a question that contains "delete"
but also "privacy" is routed to the higher-priority protection-intent
template, not the deletion-intent template. -/
theorem delete_routing_counterexample :
    containsSub (lowerStr ("Can you delete my privacy data?".data)) ("delete".data) = true ∧
    generate_mock_chat_response ("Can you delete my privacy data?".data) ("Tinder".data)
        (get_mock_policy ("Tinder".data)) ≠
      deletion_response ("Tinder".data) := by
  refine ⟨by decide, by decide⟩

/-- Witness for C8 (amended): a plain deletion question routes to the
deletion template, which mentions the platform name. -/
theorem delete_intent_priority_routing_witness :
    generate_mock_chat_response ("How do I delete my data?".data) ("TikTok".data)
        (get_mock_policy ("TikTok".data)) =
      deletion_response ("TikTok".data) ∧
    ∃ pre post : Str,
      generate_mock_chat_response ("How do I delete my data?".data) ("TikTok".data)
          (get_mock_policy ("TikTok".data)) =
        pre ++ ("TikTok".data) ++ post :=
  delete_intent_priority_routing ("How do I delete my data?".data) ("TikTok".data)
    (get_mock_policy ("TikTok".data))
    (by decide) (by decide) (by decide) (by decide) (by decide)
